import Mathlib

/-!
Verification of the mmsg batched-datagram wrapper (src/lib.rs).

The Rust source is shallowly embedded: machine integers become `Nat`/`Int`
with the relevant `as`-casts made explicit, raw pointers become addresses
with 0 as the null pointer, and the external `recvmmsg`/`sendmmsg` syscalls
become parameters (the wrapper only builds the call arguments and translates
the return code, so the syscall itself is kept abstract).
-/

namespace Mmsg

/-- `u64 as i64` cast semantics: values at or above `2^63` wrap negative. -/
def cast_u64_i64 (u : Nat) : Int :=
  if u < 2 ^ 63 then (u : Int) else (u : Int) - 2 ^ 64

/-- `usize as u32` cast semantics (64-bit `usize`): truncation mod `2^32`. -/
def cast_usize_u32 (n : Nat) : Nat := n % 2 ^ 32

/-- `i32 as usize` cast semantics (64-bit `usize`): sign-extend, reinterpret. -/
def cast_i32_usize (n : Int) : Nat := (n % (2 ^ 64 : Int)).toNat

/-- `std::time::Duration`: whole seconds (a `u64`) plus sub-second
nanoseconds; the type invariant keeps `nanos` strictly below `10^9`. -/
structure Duration where
  secs : Nat
  nanos : Nat
  secs_lt : secs < 2 ^ 64
  nanos_lt : nanos < 1000000000

/-- `Duration::as_secs` returns the whole-seconds component (a `u64`). -/
def Duration.as_secs (d : Duration) : Nat := d.secs

/-- `Duration::subsec_nanos` returns the sub-second nanoseconds (a `u32`). -/
def Duration.subsec_nanos (d : Duration) : Nat := d.nanos

/-- `libc::timespec`: seconds and nanoseconds, both signed 64-bit fields. -/
structure Timespec where
  tv_sec : Int
  tv_nsec : Int
deriving DecidableEq

/-- The timeout conversion inside `recvmmsg` (src/lib.rs:68-71):
`timespec { tv_sec: d.as_secs() as i64, tv_nsec: d.subsec_nanos() as i64 }`.
The `u64 as i64` cast is silent; there is no panic in this expression. -/
def timespecOfDuration (d : Duration) : Timespec :=
  { tv_sec := cast_u64_i64 d.as_secs
    tv_nsec := (d.subsec_nanos : Int) }

/-- OS flag constants (Linux numeric values, from `libc`). -/
def MSG_DONTWAIT : Nat := 0x40

def MSG_CMSG_CLOEXEC : Nat := 0x40000000

def MSG_ERRQUEUE : Nat := 0x2000

def MSG_PEEK : Nat := 0x2

def MSG_TRUNC : Nat := 0x20

def MSG_WAITFORONE : Nat := 0x10000

/-- `MsgFlags`: the `bitflags!` set over `c_int`; `bits` is the raw value. -/
structure MsgFlags where
  bits : Nat
deriving DecidableEq

/-- `MsgFlags::default()`: the empty flag set. -/
def MsgFlags.default : MsgFlags := ⟨0⟩

/-- A raw pointer modelled as an address; `0` is the null pointer. -/
abbrev Ptr := Nat

/-- `std::ptr::null_mut()`. -/
def nullPtr : Ptr := 0

/-- One scatter/gather buffer (`iovec::IoVec`), abstracted to its capacity. -/
structure IoVec where
  len : Nat
deriving DecidableEq

/-- `libc::msghdr`, field for field. `msg_iov` is the pointer to the
caller's iovec slice, modelled by the slice contents themselves. -/
structure Msghdr where
  msg_name : Ptr
  msg_namelen : Nat
  msg_iov : List IoVec
  msg_iovlen : Nat
  msg_control : Ptr
  msg_controllen : Nat
  msg_flags : Nat
deriving DecidableEq

/-- `libc::mmsghdr`: a `msghdr` plus the `msg_len` output field (`c_uint`). -/
structure Mmsghdr where
  msg_hdr : Msghdr
  msg_len : Nat
deriving DecidableEq

/-- `MMsgHdr<'buf>`: the crate's wrapper struct around `libc::mmsghdr`. -/
structure MMsgHdr where
  hdr : Mmsghdr
deriving DecidableEq

/-- `MMsgHdr::new` (src/lib.rs:32-52): builds the OS-layout envelope for a
buffer list and flag set; name/control left null, `msg_len` zeroed. -/
def MMsgHdr.new (iovec : List IoVec) (flags : MsgFlags) : MMsgHdr :=
  let vlen := iovec.length
  { hdr :=
      { msg_hdr :=
          { msg_control := nullPtr
            msg_controllen := 0
            msg_flags := flags.bits
            msg_iov := iovec
            msg_iovlen := vlen
            msg_name := nullPtr
            msg_namelen := 0 }
        msg_len := 0 } }

/-- `MMsgHdr::msg_len` (src/lib.rs:54-56): `self.hdr.msg_len as usize`. -/
def MMsgHdr.msg_len (m : MMsgHdr) : Nat := m.hdr.msg_len

/-- `max_len` (src/lib.rs:113-127): `c_int::max_value() - 1` on macOS,
`ssize_t::max_value()` elsewhere, both `as usize`. The compile-time
`cfg!(target_os = "macos")` branch is the `macos` parameter. -/
def max_len (macos : Bool) : Nat :=
  if macos then (2 ^ 31 - 1) - 1 else 2 ^ 63 - 1

/-- `cvt` (src/lib.rs:105-111): translate a raw syscall return code into
`io::Result`; `errno` stands for the value `io::Error::last_os_error()`
would capture. -/
def cvt (errno : Nat) (t : Int) : Except Nat Int :=
  if t = -1 then Except.error errno else Except.ok t

/-- The `vlen` expression shared by both operations (src/lib.rs:67,90):
`cmp::min(msgvec.len(), max_len()) as u32`. -/
def submitted_vlen (macos : Bool) (msgvecLen : Nat) : Nat :=
  cast_usize_u32 (min msgvecLen (max_len macos))

/-- The argument tuple `recvmmsg` hands to `libc::recvmmsg`. -/
structure RecvCall where
  fd : Nat
  msgvec : List MMsgHdr
  vlen : Nat
  flags : Nat
  timeout : Option Timespec
deriving DecidableEq

/-- The argument tuple `sendmmsg` hands to `libc::sendmmsg`. -/
structure SendCall where
  fd : Nat
  msgvec : List MMsgHdr
  vlen : Nat
  flags : Nat
deriving DecidableEq

/-- The arguments built by `recvmmsg` (src/lib.rs:66-84): capped-and-cast
length, raw flag bits, and the optionally converted timeout. -/
def recvmmsgCall (macos : Bool) (fd : Nat) (msgvec : List MMsgHdr)
    (flags : MsgFlags) (timeout : Option Duration) : RecvCall :=
  { fd := fd
    msgvec := msgvec
    vlen := submitted_vlen macos msgvec.length
    flags := flags.bits
    timeout := timeout.map timespecOfDuration }

/-- The arguments built by `sendmmsg` (src/lib.rs:89-99): capped-and-cast
length and the literal `0` flags argument. -/
def sendmmsgCall (macos : Bool) (fd : Nat) (msgvec : List MMsgHdr) :
    SendCall :=
  { fd := fd
    msgvec := msgvec
    vlen := submitted_vlen macos msgvec.length
    flags := 0 }

/-- `recvmmsg` (src/lib.rs:66-88). The syscall is the parameter `os`,
returning the raw return code and the (possibly updated) msgvec; the
wrapper routes the code through `cvt` and casts the count to `usize`. -/
def recvmmsg (macos : Bool) (os : RecvCall → Int × List MMsgHdr) (fd : Nat)
    (msgvec : List MMsgHdr) (flags : MsgFlags) (timeout : Option Duration)
    (errno : Nat) : Except Nat Nat × List MMsgHdr :=
  let c := recvmmsgCall macos fd msgvec flags timeout
  let r := os c
  (match cvt errno r.1 with
   | Except.error e => Except.error e
   | Except.ok n => Except.ok (cast_i32_usize n), r.2)

/-- `sendmmsg` (src/lib.rs:89-102), with the syscall as parameter `os`. -/
def sendmmsg (macos : Bool) (os : SendCall → Int × List MMsgHdr) (fd : Nat)
    (msgvec : List MMsgHdr) (errno : Nat) :
    Except Nat Nat × List MMsgHdr :=
  let c := sendmmsgCall macos fd msgvec
  let r := os c
  (match cvt errno r.1 with
   | Except.error e => Except.error e
   | Except.ok n => Except.ok (cast_i32_usize n), r.2)

/-- A timeout whose seconds component does not fit in `i64`. -/
def hugeDuration : Duration :=
  { secs := 2 ^ 63
    nanos := 0
    secs_lt := by norm_num
    nanos_lt := by norm_num }

/-- C1: the claim (and the trait doc at src/lib.rs:59) says an
OS-unrepresentable seconds component makes `recvmmsg` panic during timeout
conversion. The code instead performs a silent `u64 as i64` cast: at
`Duration` seconds `2^63` the call is built with `tv_sec = -(2^63)` and
proceeds — no panic, refuting the fail-fast behaviour. -/
theorem c1_timeout_silently_wrapped :
    (recvmmsgCall false 3 [] MsgFlags.default (some hugeDuration)).timeout
      = some { tv_sec := -(2 ^ 63), tv_nsec := 0 } := by
  norm_num [recvmmsgCall, timespecOfDuration, cast_u64_i64, hugeDuration,
    Duration.as_secs, Duration.subsec_nanos]

/-- C2 counterexample: on a non-macOS platform, an envelope array of length
`2^32` has `min(len, max_len()) = 2^32`, but the `as u32` cast truncates
the submitted length to `0`, so the submitted length is not
`min(len(envelopes), PlatformMax())`. -/
theorem c2_submitted_len_counterexample :
    (sendmmsgCall false 0
        (List.replicate (2 ^ 32) (MMsgHdr.new [] MsgFlags.default))).vlen
      ≠ min (List.replicate (2 ^ 32)
          (MMsgHdr.new [] MsgFlags.default)).length (max_len false) := by
  show submitted_vlen false (List.replicate (2 ^ 32)
      (MMsgHdr.new [] MsgFlags.default)).length
    ≠ min (List.replicate (2 ^ 32)
      (MMsgHdr.new [] MsgFlags.default)).length (max_len false)
  have hlen : (List.replicate (2 ^ 32)
      (MMsgHdr.new [] MsgFlags.default)).length = 2 ^ 32 :=
    List.length_replicate _ _
  rw [hlen]
  norm_num [submitted_vlen, cast_usize_u32, max_len]

/-- C2 (amended): the length submitted to the OS by both `recvmmsg` and
`sendmmsg` is `min(len(envelopes), max_len())` reduced modulo `2^32` (the
`as u32` cast); it consequently never exceeds the array length or
`max_len()`, and equals `min(len(envelopes), max_len())` whenever the
array length is below `2^32`. -/
theorem c2_submitted_len_spec (macos : Bool) (fd : Nat)
    (msgvec : List MMsgHdr) (flags : MsgFlags)
    (timeout : Option Duration) :
    (recvmmsgCall macos fd msgvec flags timeout).vlen
        = min msgvec.length (max_len macos) % 2 ^ 32
      ∧ (sendmmsgCall macos fd msgvec).vlen
        = min msgvec.length (max_len macos) % 2 ^ 32
      ∧ (recvmmsgCall macos fd msgvec flags timeout).vlen ≤ msgvec.length
      ∧ (recvmmsgCall macos fd msgvec flags timeout).vlen ≤ max_len macos
      ∧ (sendmmsgCall macos fd msgvec).vlen ≤ msgvec.length
      ∧ (sendmmsgCall macos fd msgvec).vlen ≤ max_len macos
      ∧ (msgvec.length < 2 ^ 32 →
          (recvmmsgCall macos fd msgvec flags timeout).vlen
            = min msgvec.length (max_len macos)) := by
  have hle : submitted_vlen macos msgvec.length
      ≤ min msgvec.length (max_len macos) := Nat.mod_le _ _
  refine ⟨rfl, rfl, ?_, ?_, ?_, ?_, ?_⟩
  · exact le_trans hle (Nat.min_le_left _ _)
  · exact le_trans hle (Nat.min_le_right _ _)
  · exact le_trans hle (Nat.min_le_left _ _)
  · exact le_trans hle (Nat.min_le_right _ _)
  · intro h
    have hlt : min msgvec.length (max_len macos) < 2 ^ 32 :=
      lt_of_le_of_lt (Nat.min_le_left _ _) h
    exact Nat.mod_eq_of_lt hlt

/-- C2 witness: the amended statement applied at a concrete input. -/
theorem c2_submitted_len_spec_witness :
    (recvmmsgCall false 3 [] MsgFlags.default none).vlen
      = min ([] : List MMsgHdr).length (max_len false) % 2 ^ 32 :=
  (c2_submitted_len_spec false 3 [] MsgFlags.default none).1

/-- C3: `cvt` yields the failure carrying the OS error exactly when the
return code is `-1`, and yields every other value unchanged as a success. -/
theorem c3_cvt_spec (errno : Nat) (t : Int) :
    (cvt errno t = Except.error errno ↔ t = -1)
      ∧ ∀ n : Int, cvt errno t = Except.ok n ↔ t ≠ -1 ∧ n = t := by
  unfold cvt
  by_cases h : t = -1 <;> simp [h, eq_comm]

/-- C4: `max_len` is a total function of the compile-time platform flag:
`i32::MAX - 1` on macOS and `ssize_t::MAX` (64-bit) elsewhere. -/
theorem c4_max_len_spec :
    max_len true = (2 ^ 31 - 1) - 1 ∧ max_len false = 2 ^ 63 - 1 :=
  ⟨rfl, rfl⟩

/-- C5: assuming the syscall's ABI contract that entries at index ≥ the
submitted `vlen` are untouched, both `recvmmsg` and `sendmmsg` leave every
envelope at index ≥ `min(len(envelopes), max_len())` unchanged. -/
theorem c5_excess_envelopes_untouched (macos : Bool)
    (osR : RecvCall → Int × List MMsgHdr)
    (osS : SendCall → Int × List MMsgHdr)
    (hR : ∀ c : RecvCall, ∀ i : Nat, c.vlen ≤ i →
      (osR c).2.get? i = c.msgvec.get? i)
    (hS : ∀ c : SendCall, ∀ i : Nat, c.vlen ≤ i →
      (osS c).2.get? i = c.msgvec.get? i)
    (fd : Nat) (msgvec : List MMsgHdr) (flags : MsgFlags)
    (timeout : Option Duration) (errno : Nat) (i : Nat)
    (hi : min msgvec.length (max_len macos) ≤ i) :
    (recvmmsg macos osR fd msgvec flags timeout errno).2.get? i
        = msgvec.get? i
      ∧ (sendmmsg macos osS fd msgvec errno).2.get? i = msgvec.get? i := by
  have hle : submitted_vlen macos msgvec.length ≤ i :=
    le_trans (Nat.mod_le _ _) hi
  exact ⟨hR (recvmmsgCall macos fd msgvec flags timeout) i hle,
    hS (sendmmsgCall macos fd msgvec) i hle⟩

/-- C5 witness: the theorem applied with a kernel model that returns its
input unchanged, at a concrete (empty) envelope array. -/
theorem c5_excess_envelopes_untouched_witness :
    (recvmmsg false (fun c => (0, c.msgvec)) 3 [] MsgFlags.default none
          7).2.get? 0
        = ([] : List MMsgHdr).get? 0
      ∧ (sendmmsg false (fun c => (0, c.msgvec)) 3 [] 7).2.get? 0
        = ([] : List MMsgHdr).get? 0 :=
  c5_excess_envelopes_untouched false (fun c => (0, c.msgvec))
    (fun c => (0, c.msgvec)) (fun _ _ _ => rfl) (fun _ _ _ => rfl)
    3 [] MsgFlags.default none 7 0 (by simp)

/-- C6: `MMsgHdr::new` nulls/zeroes the peer-address and control fields,
stores the given flags' bit value, and sets the scatter/gather count to the
number of buffers in the view. -/
theorem c6_new_fields (iovec : List IoVec) (flags : MsgFlags) :
    (MMsgHdr.new iovec flags).hdr.msg_hdr.msg_name = nullPtr
      ∧ (MMsgHdr.new iovec flags).hdr.msg_hdr.msg_namelen = 0
      ∧ (MMsgHdr.new iovec flags).hdr.msg_hdr.msg_control = nullPtr
      ∧ (MMsgHdr.new iovec flags).hdr.msg_hdr.msg_controllen = 0
      ∧ (MMsgHdr.new iovec flags).hdr.msg_hdr.msg_flags = flags.bits
      ∧ (MMsgHdr.new iovec flags).hdr.msg_hdr.msg_iovlen = iovec.length :=
  ⟨rfl, rfl, rfl, rfl, rfl, rfl⟩

/-- C7: `MMsgHdr::new` is total — it yields an envelope for every buffer
view, the empty view included, whose scatter/gather count is the view's
length (hence `0` for the empty view). -/
theorem c7_new_total (iovec : List IoVec) (flags : MsgFlags) :
    ∃ m : MMsgHdr, MMsgHdr.new iovec flags = m
      ∧ m.hdr.msg_hdr.msg_iovlen = iovec.length
      ∧ (MMsgHdr.new [] flags).hdr.msg_hdr.msg_iovlen = 0 :=
  ⟨MMsgHdr.new iovec flags, rfl, rfl, rfl⟩

/-- C8: `sendmmsg` always hands the literal `0` as the per-call flags
argument of the send syscall, whatever the envelope array contains. -/
theorem c8_send_flags_zero (macos : Bool) (fd : Nat)
    (msgvec : List MMsgHdr) :
    (sendmmsgCall macos fd msgvec).flags = 0 := rfl

/-- C9: the `tv_nsec` field of the timespec built from any timeout
`Duration` lies in `[0, 999999999]`, since it comes from
`Duration::subsec_nanos`. -/
theorem c9_tv_nsec_in_range (d : Duration) :
    0 ≤ (timespecOfDuration d).tv_nsec
      ∧ (timespecOfDuration d).tv_nsec ≤ 999999999 := by
  have h := d.nanos_lt
  simp only [timespecOfDuration, Duration.subsec_nanos]
  omega

/-- C10: a freshly constructed envelope has `msg_len = 0`, so the
`msg_len()` accessor returns `0` before any batch call. -/
theorem c10_new_msg_len_zero (iovec : List IoVec) (flags : MsgFlags) :
    (MMsgHdr.new iovec flags).msg_len = 0 := rfl

end Mmsg
